import Mathlib

/-!
Shallow embedding of `src/app.py`, the single-file Flask batch uploader.

The executed program keeps one process-wide `upload_status` dictionary, two
`threading.Event` signals, a temporary file store for spreadsheets, and a
per-client session.  The worker function `upload_worker` (lines 110-194)
parses the stored spreadsheet, publishes `total` and `running`, appends one
fixed "note" error record, sleeps five seconds, publishes `completed` and
returns at line 132.  Everything after that `return` (the per-item loop at
lines 142-184) is unreachable.  Control routes (`/upload`, `/start`,
`/pause`, `/resume`, `/stop`, `/upload_image`, `/status`) are embedded as
pure state-and-response functions, and whole-program behaviour is the
reflexive-transitive closure of one deterministic `step` function over an
action alphabet (one action per route request, plus one scheduler action
per worker step, splitting the worker at its `time.sleep(5)` point so that
route handlers can interleave with a running worker).
-/

/-- One record produced by the spreadsheet parser.  The spec requires at
least a title, a resource path and an open attribute mapping; `app.py`
reads only `title` and `image_path` from it. -/
structure Product where
  title : String
  image_path : String
  attributes : List (String × String)
deriving DecidableEq

/-- Content of a stored spreadsheet file, abstracted to what the parser can
make of it: a list of product records, or a parse failure message. -/
inductive FileContent
  | good (products : List Product)
  | bad (msg : String)
deriving DecidableEq

/-- Modelled from the spec: `parse_spreadsheet` lives in
`utils/spreadsheet_parser.py`, which is not among the sources here.  Per the
spec, the item-list producer returns an ordered sequence of item records,
and a parse failure raises (surfaced by the callers' try/except blocks). -/
def parse_spreadsheet : FileContent → Except String (List Product)
  | FileContent.good ps => Except.ok ps
  | FileContent.bad msg => Except.error msg

/-- The `product` field of an error record: `app.py` stores either a string
sentinel ("note" at line 122, "global" at line 191) or a 1-based item
position (line 177, in the unreachable loop). -/
inductive ProductRef
  | str (s : String)
  | idx (n : Nat)
deriving DecidableEq

/-- One entry of `upload_status["errors"]` (dictionaries with keys
`product`, `title`, `error`). -/
structure ErrorRecord where
  product : ProductRef
  title : String
  error : String
deriving DecidableEq

/-- The shared `upload_status` dictionary (lines 19-27). -/
structure UploadStatus where
  total : Nat
  current : Nat
  success : Nat
  failed : Nat
  status : String
  errors : List ErrorRecord
  current_product : String
deriving DecidableEq

/-- The initial `upload_status` value (lines 19-27), also assigned verbatim
by the `/upload` route (lines 60-68). -/
def initial_upload_status : UploadStatus :=
  { total := 0, current := 0, success := 0, failed := 0,
    status := "idle", errors := [], current_product := "" }

/-- The fixed error record appended by the stub worker (lines 121-125). -/
def noteRecord : ErrorRecord :=
  { product := ProductRef.str "note",
    title := "Local Execution Required",
    error := "This batch uploader needs to be run on your local machine to access Chrome. Please download this code and run it locally." }

/-- The error record appended by the worker's except-branch (lines 190-194). -/
def globalRecord (e : String) : ErrorRecord :=
  { product := ProductRef.str "global", title := "Global Error", error := e }

/-- Python-dict assignment `m[k] = v`: replace the value at an existing key,
else append the binding.  Used for the file folders and for
`session["image_mappings"]`. -/
def dictInsert {α : Type} (m : List (String × α)) (k : String) (v : α) :
    List (String × α) :=
  match m with
  | [] => [(k, v)]
  | (k0, v0) :: rest =>
    if k0 = k then (k, v) :: rest else (k0, v0) :: dictInsert rest k v

/-- Python-dict read `m.get(k)` / `m[k]`. -/
def dictLookup {α : Type} (m : List (String × α)) (k : String) : Option α :=
  match m with
  | [] => none
  | (k0, v0) :: rest => if k0 = k then some v0 else dictLookup rest k

/-- Python `k in m` on a dictionary. -/
def containsKey {α : Type} (m : List (String × α)) (k : String) : Bool :=
  match m with
  | [] => false
  | (k0, _) :: rest => k0 = k || containsKey rest k

/-- Events the worker emits towards external capabilities; `procOpen`,
`procProcess` and `procClose` stand for acquiring the Selenium automation,
`upload_product(item)` and `automation.close()`.  The executed worker
(lines 110-132) only parses and sleeps; the automation calls appear solely
in the unreachable code after the early return. -/
inductive Ev
  | parseCall
  | sleepEv (seconds : Nat)
  | procOpen
  | procProcess (i : Nat)
  | procClose
deriving DecidableEq

/-- Lines 114-125 plus the except-branch (lines 186-194): the first
observable half of the worker.  On a successful parse it sets `total`,
publishes `running` and appends the fixed note record; on a parse failure it
publishes `error` and appends one global record.  Counters are untouched. -/
def worker_stepA (res : Except String (List Product)) (st : UploadStatus) :
    UploadStatus :=
  match res with
  | Except.ok ps =>
    { st with total := ps.length, status := "running",
              errors := st.errors ++ [noteRecord] }
  | Except.error e =>
    { st with status := "error", errors := st.errors ++ [globalRecord e] }

/-- Line 129, reached after `time.sleep(5)`: the worker unconditionally
publishes `completed`. -/
def worker_stepB (st : UploadStatus) : UploadStatus :=
  { st with status := "completed" }

/-- Reading the spreadsheet at a path: a missing file raises just like a
parse failure (both are caught by the worker's except-branch). -/
def parse_at (files : List (String × FileContent)) (fp : String) :
    Except String (List Product) :=
  match dictLookup files fp with
  | none => Except.error "No such file or directory"
  | some c => parse_spreadsheet c

/-- The whole of `upload_worker` (lines 110-194) as executed: the early
return at line 132 makes the per-item loop unreachable, so a run is
`worker_stepA` followed, on the parse-success path only, by the five-second
sleep and `worker_stepB`.  The second component is the trace of external
events.  Note that the `headless` and `delay` arguments are never used, and
the pause/stop events are not inputs at all: no executed worker code reads
them. -/
def upload_worker (files : List (String × FileContent)) (file_path : String)
    (headless : Bool) (delay : Nat) (st : UploadStatus) :
    UploadStatus × List Ev :=
  match parse_at files file_path with
  | Except.ok ps =>
    (worker_stepB (worker_stepA (Except.ok ps) st), [Ev.parseCall, Ev.sleepEv 5])
  | Except.error e =>
    (worker_stepA (Except.error e) st, [Ev.parseCall])

/-- Program counter of one spawned worker thread: `start fp` before it has
run (thread created, nothing executed yet), `sleeping` during the
`time.sleep(5)`, `done` after the function returned. -/
inductive Worker
  | start (fp : String)
  | sleeping
  | done
deriving DecidableEq

/-- Whole-process state: the shared status dictionary, the two
`threading.Event` signals, the spreadsheet folder contents, the session
keys `app.py` uses, and the spawned worker threads. -/
structure Sys where
  upload_status : UploadStatus
  pause_event : Bool
  stop_event : Bool
  files : List (String × FileContent)
  file_path : Option String
  product_count : Nat
  image_paths : List String
  image_mappings : List (String × String)
  image_mode : Option String
  workers : List Worker
deriving DecidableEq

/-- Process start: empty status, cleared events, empty folders and session,
no threads. -/
def init : Sys :=
  { upload_status := initial_upload_status, pause_event := false,
    stop_event := false, files := [], file_path := none, product_count := 0,
    image_paths := [], image_mappings := [], image_mode := none,
    workers := [] }

/-- HTTP-level responses of the routes, keeping the literal messages the
claims and traces need. -/
inductive Resp
  | ok (msg : String)
  | err (code : Nat) (msg : String)
  | okUpload (count : Nat) (image_paths : List String)
  | okImage (path : String)
  | statusSnap (st : UploadStatus)
deriving DecidableEq

/-- Directory `tempfile.mkdtemp()` returns for spreadsheets (line 34),
modelled as a fixed fresh directory. -/
def SPREADSHEET_FOLDER : String := "/tmp/spreadsheets"

/-- Directory `tempfile.mkdtemp()` returns for images (line 35). -/
def IMAGES_FOLDER : String := "/tmp/images"

def ALLOWED_SPREADSHEET_EXTENSIONS : List String := ["csv", "xlsx", "xls"]

def ALLOWED_IMAGE_EXTENSIONS : List String := ["png", "jpg", "jpeg", "gif"]

/-- ASCII lower-casing of one character, as Python `str.lower` acts on the
extension characters compared here. -/
def lowerChar (c : Char) : Char :=
  if 'A' ≤ c && c ≤ 'Z' then Char.ofNat (c.toNat + 32) else c

/-- Characters after the last dot of a name, or `none` when the name has no
dot: this is what Python `filename.rsplit('.', 1)[1]` yields, with `none`
standing for the `'.' in filename` guard failing. -/
def extAfterDot : List Char → Option (List Char)
  | [] => none
  | c :: rest =>
    match extAfterDot rest with
    | some e => some e
    | none => if c = '.' then some rest else none

/-- Lines 43-47: `'.' in filename and filename.rsplit('.', 1)[1].lower() in
extensions`. -/
def allowed_file (exts : List String) (filename : String) : Bool :=
  match extAfterDot filename.data with
  | none => false
  | some e => exts.contains (String.mk (e.map lowerChar))

/-- A POST to `/upload`: either one of the no-file / empty-name early
returns (lines 71-76), or a named file with some content. -/
inductive UploadReq
  | noFilePart
  | emptyFilename
  | withFile (filename : String) (content : FileContent)
deriving DecidableEq

/-- The `/upload` route (lines 54-108).  It resets `upload_status` before
any validation, then saves the file (overwriting any previous file of the
same name) and parses it; only a successful parse updates the session.
`secure_filename` is a deterministic sanitizer; it is modelled as the
identity, which preserves the only property used here: equal upload names
map to equal stored paths. -/
def upload_file (s : Sys) (req : UploadReq) : Sys × Resp :=
  let s0 := { s with upload_status := initial_upload_status }
  match req with
  | UploadReq.noFilePart => (s0, Resp.err 400 "No file part")
  | UploadReq.emptyFilename => (s0, Resp.err 400 "No file selected")
  | UploadReq.withFile filename content =>
    if allowed_file ALLOWED_SPREADSHEET_EXTENSIONS filename then
      let path := SPREADSHEET_FOLDER ++ "/" ++ filename
      let s1 := { s0 with files := dictInsert s0.files path content }
      match parse_spreadsheet content with
      | Except.ok ps =>
        ({ s1 with file_path := some path, product_count := ps.length,
                   image_paths := ps.map (fun p => p.image_path) },
         Resp.okUpload ps.length (ps.map (fun p => p.image_path)))
      | Except.error e =>
        (s1, Resp.err 500 ("Error processing spreadsheet: " ++ e))
    else (s0, Resp.err 400 "File type not allowed")

/-- The JSON options a POST to `/start` may carry (lines 208-217), with
their defaults `headless=False`, `delay=2`, `image_mode='local'`. -/
structure StartOpts where
  headless : Bool
  delay : Nat
  image_mode : String
deriving DecidableEq

/-- Default `/start` options. -/
def opts0 : StartOpts := { headless := false, delay := 2, image_mode := "local" }

/-- The `/start` route (lines 196-231): reject when no spreadsheet is in
the session, reject when the published status is "running", otherwise clear
both events, record the image mode, spawn a worker thread on the stored
path and answer `Upload started`.  Note it does not touch `upload_status`. -/
def start_upload (s : Sys) (opts : StartOpts) : Sys × Resp :=
  match s.file_path with
  | none => (s, Resp.err 400 "No file has been uploaded yet")
  | some fp =>
    if s.upload_status.status = "running" then
      (s, Resp.err 400 "Upload already in progress")
    else
      ({ s with pause_event := false, stop_event := false,
                image_mode := some opts.image_mode,
                workers := s.workers ++ [Worker.start fp] },
       Resp.ok "Upload started")

/-- The `/pause` route (lines 275-282). -/
def pause_upload (s : Sys) : Sys × Resp :=
  if s.upload_status.status = "running" then
    ({ s with pause_event := true }, Resp.ok "Upload paused")
  else (s, Resp.err 400 "No active upload to pause")

/-- The `/resume` route (lines 284-291). -/
def resume_upload (s : Sys) : Sys × Resp :=
  if s.upload_status.status = "paused" then
    ({ s with pause_event := false }, Resp.ok "Upload resumed")
  else (s, Resp.err 400 "No paused upload to resume")

/-- The `/stop` route (lines 293-301): accepted when the published status
is "running" or "paused"; sets the stop event and clears the pause event. -/
def stop_upload (s : Sys) : Sys × Resp :=
  if s.upload_status.status = "running" || s.upload_status.status = "paused" then
    ({ s with stop_event := true, pause_event := false },
     Resp.ok "Upload stopped")
  else (s, Resp.err 400 "No active upload to stop")

/-- A POST to `/upload_image`: one of the early-return validation failures
(lines 236-241), or a named image with its form fields `index` and
`original_path` (empty string models a missing/falsy field). -/
inductive ImageReq
  | invalid
  | withImage (filename : String) (index : String) (original_path : String)
deriving DecidableEq

/-- The `/upload_image` route (lines 233-268): validates, saves the image
under a path determined by its filename, and records the mapping
`original_path -> stored path` in `session["image_mappings"]`
(last write wins, by dictionary assignment). -/
def upload_image (s : Sys) (req : ImageReq) : Sys × Resp :=
  match req with
  | ImageReq.invalid => (s, Resp.err 400 "No image file part")
  | ImageReq.withImage filename index original_path =>
    if allowed_file ALLOWED_IMAGE_EXTENSIONS filename then
      if index = "" ∨ original_path = "" then
        (s, Resp.err 400 "Missing image index or original path")
      else
        let path := IMAGES_FOLDER ++ "/" ++ filename
        ({ s with image_mappings := dictInsert s.image_mappings original_path path },
         Resp.okImage path)
    else (s, Resp.err 400 "Image file type not allowed")

/-- The `/status` route (lines 270-273): a read-only snapshot of
`upload_status`. -/
def get_status (s : Sys) : Sys × Resp :=
  (s, Resp.statusSnap s.upload_status)

/-- Lines 157-166 of the unreachable loop, as the resolver contract: use the
submitted mapping for a path when one exists, else keep the path. -/
def resolve_image_path (m : List (String × String)) (p : String) : String :=
  if containsKey m p then (dictLookup m p).getD p else p

/-- One scheduler step of worker thread `i`: run it up to the sleep (its
parse-and-publish prefix), through its error path, or through its final
`completed` publication.  Built from the same `worker_stepA`/`worker_stepB`
as the pure `upload_worker`. -/
def wstep_sys (s : Sys) (i : Nat) : Sys :=
  match s.workers[i]? with
  | none => s
  | some Worker.done => s
  | some Worker.sleeping =>
    { s with upload_status := worker_stepB s.upload_status,
             workers := s.workers.set i Worker.done }
  | some (Worker.start fp) =>
    match parse_at s.files fp with
    | Except.ok ps =>
      { s with upload_status := worker_stepA (Except.ok ps) s.upload_status,
               workers := s.workers.set i Worker.sleeping }
    | Except.error e =>
      { s with upload_status := worker_stepA (Except.error e) s.upload_status,
               workers := s.workers.set i Worker.done }

/-- One interleaving action: a request to one of the routes, or a scheduler
step of one worker thread. -/
inductive Act
  | upload (req : UploadReq)
  | start (opts : StartOpts)
  | pause
  | resume
  | stop
  | image (req : ImageReq)
  | getStatus
  | wstep (i : Nat)
deriving DecidableEq

/-- The deterministic global transition function. -/
def step (s : Sys) (a : Act) : Sys :=
  match a with
  | Act.upload req => (upload_file s req).1
  | Act.start opts => (start_upload s opts).1
  | Act.pause => (pause_upload s).1
  | Act.resume => (resume_upload s).1
  | Act.stop => (stop_upload s).1
  | Act.image req => (upload_image s req).1
  | Act.getStatus => (get_status s).1
  | Act.wstep i => wstep_sys s i

/-- Execution of a finite interleaving. -/
def run (s : Sys) : List Act → Sys
  | [] => s
  | a :: rest => run (step s a) rest

/-- A worker thread is active from its spawn until its function returns. -/
def activeW : Worker → Bool
  | Worker.done => false
  | _ => true

/-- Whether an event is a per-item processing call. -/
def isProcessEv : Ev → Bool
  | Ev.procProcess _ => true
  | _ => false

/-- Counters of the shared status are never advanced by any executed code:
this predicate is invariant under every action. -/
def counters_zero (s : Sys) : Prop :=
  s.upload_status.current = 0 ∧ s.upload_status.success = 0 ∧
    s.upload_status.failed = 0

/-- Sample item record used by the concrete traces. -/
def prodA : Product :=
  { title := "Product A", image_path := "images/a.png", attributes := [] }

/-- Second sample item record. -/
def prodB : Product :=
  { title := "Product B", image_path := "images/b.png", attributes := [] }

/-- Stored path of the sample spreadsheet upload named `a.csv`. -/
def spPath : String := SPREADSHEET_FOLDER ++ "/a.csv"

/-- Upload one parsable spreadsheet with a single product. -/
def actsGood : List Act :=
  [Act.upload (UploadReq.withFile "a.csv" (FileContent.good [prodA]))]

/-- Upload a parsable spreadsheet, then overwrite the same stored file with
one that does not parse: the session still points at the (now bad) path. -/
def acts5a : List Act :=
  actsGood ++ [Act.upload (UploadReq.withFile "a.csv" (FileContent.bad "boom"))]

/-- Reach a state whose published status is "error" while an earlier worker
is still inside its five-second sleep: good upload, start, let the first
worker publish "running", overwrite the file with a bad one, start again,
and let the second worker fail its parse. -/
def acts1err : List Act :=
  actsGood ++
    [Act.start opts0, Act.wstep 0,
     Act.upload (UploadReq.withFile "a.csv" (FileContent.bad "boom")),
     Act.start opts0, Act.wstep 1]

/-- A run in mid-sleep: upload, start, worker publishes "running". -/
def acts1stopPre : List Act := actsGood ++ [Act.start opts0, Act.wstep 0]

/-- The same run with a stop request accepted during the sleep, then the
worker's final step. -/
def acts1stop : List Act := acts1stopPre ++ [Act.stop, Act.wstep 0]

/-- One complete run: upload, start, both worker steps. -/
def acts2run : List Act :=
  actsGood ++ [Act.start opts0, Act.wstep 0, Act.wstep 0]

/-- File store holding a two-item parsable spreadsheet. -/
def files8 : List (String × FileContent) :=
  [(spPath, FileContent.good [prodA, prodB])]

/-- File store holding an unparsable spreadsheet. -/
def filesBad : List (String × FileContent) :=
  [(spPath, FileContent.bad "boom")]

theorem upload_file_resets (s : Sys) (req : UploadReq) :
    ((upload_file s req).1).upload_status = initial_upload_status := by
  cases req <;> unfold upload_file <;> dsimp only <;> (repeat' split) <;> rfl

theorem start_upload_keeps_status (s : Sys) (o : StartOpts) :
    ((start_upload s o).1).upload_status = s.upload_status := by
  unfold start_upload
  cases hfp : s.file_path <;> dsimp only <;> (repeat' split) <;> rfl

theorem control_keeps_status (s : Sys) :
    ((pause_upload s).1).upload_status = s.upload_status
      ∧ ((resume_upload s).1).upload_status = s.upload_status
      ∧ ((stop_upload s).1).upload_status = s.upload_status
      ∧ ((get_status s).1).upload_status = s.upload_status := by
  unfold pause_upload resume_upload stop_upload get_status
  refine ⟨?_, ?_, ?_, ?_⟩ <;> (repeat' split) <;> rfl

theorem upload_image_keeps_status (s : Sys) (req : ImageReq) :
    ((upload_image s req).1).upload_status = s.upload_status := by
  cases req <;> unfold upload_image <;> dsimp only <;> (repeat' split) <;> rfl

theorem counters_zero_step (s : Sys) (a : Act) (h : counters_zero s) :
    counters_zero (step s a) := by
  cases a with
  | upload req =>
    simp only [step, counters_zero, upload_file_resets]
    exact ⟨rfl, rfl, rfl⟩
  | start opts =>
    simp only [step, counters_zero, start_upload_keeps_status]; exact h
  | pause => simp only [step, counters_zero, (control_keeps_status s).1]; exact h
  | resume => simp only [step, counters_zero, (control_keeps_status s).2.1]; exact h
  | stop => simp only [step, counters_zero, (control_keeps_status s).2.2.1]; exact h
  | image req => simp only [step, counters_zero, upload_image_keeps_status]; exact h
  | getStatus => exact h
  | wstep i =>
    simp only [step, wstep_sys]
    split <;> (try split) <;> exact ⟨h.1, h.2.1, h.2.2⟩

theorem counters_zero_run (acts : List Act) (s : Sys) (h : counters_zero s) :
    counters_zero (run s acts) := by
  induction acts generalizing s with
  | nil => exact h
  | cons a rest ih => exact ih (step s a) (counters_zero_step s a h)

theorem dictLookup_dictInsert {α : Type} (m : List (String × α)) (k : String) (v : α) :
    dictLookup (dictInsert m k v) k = some v := by
  induction m with
  | nil => simp [dictInsert, dictLookup]
  | cons kv rest ih =>
    obtain ⟨k0, v0⟩ := kv
    by_cases hk : k0 = k
    · simp [dictInsert, dictLookup, hk]
    · simp [dictInsert, dictLookup, hk, ih]

theorem containsKey_eq_isSome {α : Type} (m : List (String × α)) (k : String) :
    containsKey m k = (dictLookup m k).isSome := by
  induction m with
  | nil => simp [containsKey, dictLookup]
  | cons kv rest ih =>
    obtain ⟨k0, v0⟩ := kv
    by_cases hk : k0 = k <;> simp [containsKey, dictLookup, hk, ih]

theorem resolve_image_path_eq_getD (m : List (String × String)) (p : String) :
    resolve_image_path m p = (dictLookup m p).getD p := by
  unfold resolve_image_path
  rw [containsKey_eq_isSome]
  cases hl : dictLookup m p <;> simp [hl]

theorem wstep_ignores_signals (s : Sys) (b1 b2 : Bool) (j : Nat) :
    (step { s with stop_event := b1, pause_event := b2 } (Act.wstep j)).upload_status
      = (step s (Act.wstep j)).upload_status := by
  simp only [step, wstep_sys]
  cases hw : s.workers[j]? with
  | none => rfl
  | some w =>
    cases w with
    | done => rfl
    | sleeping => rfl
    | start fp =>
      dsimp only
      cases hp : parse_at s.files fp <;> rfl

/-- C1 counterexample: the claim is false on the code.  First, the final
step of a run sets "completed" unconditionally, even overwriting an "error"
state published by a second worker (so "the post-loop step sets Completed
only when the state is neither Stopped nor Error" fails).  Second, a Stop
request accepted during a run leaves the stop flag set yet the run still
finishes "completed", never "stopped". -/
theorem c1_counterexample :
    (run init acts1err).upload_status.status = "error"
      ∧ (run init (acts1err ++ [Act.wstep 0])).upload_status.status = "completed"
      ∧ (stop_upload (run init acts1stopPre)).2 = Resp.ok "Upload stopped"
      ∧ (run init acts1stop).stop_event = true
      ∧ (run init acts1stop).upload_status.status = "completed" := by
  decide

/-- C1 amended: StopRequested is never observed, because the executed worker
has no checkpoints (the per-item loop is unreachable).  A run never advances
`current`, never processes an item, never reaches state "stopped", its steps
are independent of both signal flags, and its final step publishes
"completed" unconditionally, whatever state (including "error") was
published before. -/
theorem c1_stop_never_observed (files : List (String × FileContent))
    (fp : String) (headless : Bool) (delay : Nat) (st : UploadStatus) (s : Sys) :
    (upload_worker files fp headless delay st).1.current = st.current
      ∧ ((upload_worker files fp headless delay st).1.status = "completed"
          ∨ (upload_worker files fp headless delay st).1.status = "error")
      ∧ (upload_worker files fp headless delay st).2.countP isProcessEv = 0
      ∧ (∀ b1 b2 j,
          (step { s with stop_event := b1, pause_event := b2 } (Act.wstep j)).upload_status
            = (step s (Act.wstep j)).upload_status)
      ∧ (∀ st2, (worker_stepB st2).status = "completed") := by
  unfold upload_worker
  cases hp : parse_at files fp with
  | ok ps =>
    exact ⟨rfl, Or.inl rfl, rfl,
           fun b1 b2 j => wstep_ignores_signals s b1 b2 j, fun st2 => rfl⟩
  | error e =>
    exact ⟨rfl, Or.inr rfl, rfl,
           fun b1 b2 j => wstep_ignores_signals s b1 b2 j, fun st2 => rfl⟩

/-- C2 counterexample: a second Start is accepted after a completed run, and
at the moment the new execution task is launched the error log still holds
the previous run's note record — Start did not reset the JobStatus. -/
theorem c2_counterexample :
    (start_upload (run init acts2run) opts0).2 = Resp.ok "Upload started"
      ∧ (start_upload (run init acts2run) opts0).1.upload_status.errors = [noteRecord]
      ∧ (start_upload (run init acts2run) opts0).1.upload_status.errors.length = 1
      ∧ (start_upload (run init acts2run) opts0).1.workers.length = 2 := by
  decide

/-- C2 amended: an accepted Start resets only the two signals to false and
spawns one task on the stored path; it leaves the JobStatus — counters,
error log, total and state — exactly as it was (the status dictionary is
reset by the `/upload` route instead, and `total` is set by the worker after
launch). -/
theorem c2_start_resets_only_signals (s : Sys) (opts : StartOpts)
    (h : (start_upload s opts).2 = Resp.ok "Upload started") :
    (start_upload s opts).1.upload_status = s.upload_status
      ∧ (start_upload s opts).1.pause_event = false
      ∧ (start_upload s opts).1.stop_event = false
      ∧ (start_upload s opts).1.workers.length = s.workers.length + 1 := by
  unfold start_upload at h ⊢
  cases hfp : s.file_path with
  | none => rw [hfp] at h; simp at h
  | some fp =>
    rw [hfp] at h
    dsimp only at h ⊢
    by_cases hr : s.upload_status.status = "running"
    · rw [if_pos hr] at h; simp at h
    · rw [if_neg hr] at h
      rw [if_neg hr]
      exact ⟨rfl, rfl, rfl, by simp⟩

/-- C2 witness: after one upload the session has a file and the status is
"idle", so Start is accepted; the amended theorem applies. -/
theorem c2_witness :
    (start_upload (run init actsGood) opts0).2 = Resp.ok "Upload started"
      ∧ ((start_upload (run init actsGood) opts0).1.upload_status
            = (run init actsGood).upload_status
        ∧ (start_upload (run init actsGood) opts0).1.pause_event = false
        ∧ (start_upload (run init actsGood) opts0).1.stop_event = false
        ∧ (start_upload (run init actsGood) opts0).1.workers.length
            = (run init actsGood).workers.length + 1) :=
  ⟨by decide, c2_start_resets_only_signals (run init actsGood) opts0 (by decide)⟩

/-- C3 counterexample: a run launched by an accepted Start that does not
follow the stub path.  After a parsable upload, the same stored file is
overwritten by an unparsable one; Start is still accepted (it only checks
the session), and the launched run ends in state "error" with one global
record — no note record, no five-second wait. -/
theorem c3_counterexample :
    (start_upload (run init acts5a) opts0).2 = Resp.ok "Upload started"
      ∧ (run init (acts5a ++ [Act.start opts0])).workers = [Worker.start spPath]
      ∧ (run init (acts5a ++ [Act.start opts0, Act.wstep 0])).upload_status.status = "error"
      ∧ (run init (acts5a ++ [Act.start opts0, Act.wstep 0])).upload_status.errors
          = [globalRecord "boom"]
      ∧ (upload_worker filesBad spPath false 2 initial_upload_status).2 = [Ev.parseCall] := by
  decide

/-- C3 amended: every run whose stored spreadsheet parses follows the stub
path exactly — total set to the item count, precisely one "note" error
record appended, a fixed five-second sleep, final state "completed" — and
leaves current, success, failed and the current item label unchanged,
whatever the options; the per-item loop is never invoked (the event trace
is just parse-then-sleep).  A run whose parse fails instead ends in "error"
with one global record. -/
theorem c3_stub_path_on_parse_success (files : List (String × FileContent))
    (fp : String) (headless : Bool) (delay : Nat) (st : UploadStatus)
    (ps : List Product) (h : parse_at files fp = Except.ok ps) :
    upload_worker files fp headless delay st
      = ({ st with total := ps.length, status := "completed",
                   errors := st.errors ++ [noteRecord] },
         [Ev.parseCall, Ev.sleepEv 5]) := by
  unfold upload_worker
  rw [h]
  rfl

/-- C3 witness: a two-item spreadsheet parses, and the run on it is the stub
path. -/
theorem c3_witness :
    parse_at files8 spPath = Except.ok [prodA, prodB]
      ∧ upload_worker files8 spPath false 2 initial_upload_status
          = ({ initial_upload_status with total := 2, status := "completed", errors := [noteRecord] }, [Ev.parseCall, Ev.sleepEv 5]) :=
  ⟨rfl, by
    rw [c3_stub_path_on_parse_success files8 spPath false 2 initial_upload_status
          [prodA, prodB] rfl]
    rfl⟩

/-- C4 counterexample: two Starts in a row are both accepted — the first
worker thread has not yet published "running" when the second Start checks
the status — leaving two concurrently launched execution tasks. -/
theorem c4_counterexample :
    (start_upload (run init actsGood) opts0).2 = Resp.ok "Upload started"
      ∧ (start_upload (start_upload (run init actsGood) opts0).1 opts0).2
          = Resp.ok "Upload started"
      ∧ ((start_upload (start_upload (run init actsGood) opts0).1 opts0).1.workers.countP
            activeW) = 2 := by
  decide

/-- C4 amended: Start is rejected exactly when no spreadsheet path is in the
session or the published status equals "running"; otherwise it is accepted
and unconditionally spawns one more task, regardless of how many tasks are
already active — so exclusivity is only as good as the published status,
which a freshly spawned worker has not yet set. -/
theorem c4_start_rejects_only_on_running (s : Sys) (opts : StartOpts) :
    ((start_upload s opts).2 = Resp.ok "Upload started"
        ↔ (s.file_path.isSome = true ∧ s.upload_status.status ≠ "running"))
      ∧ (start_upload s opts).1.workers.length
          = (if s.file_path.isSome = true ∧ s.upload_status.status ≠ "running"
             then s.workers.length + 1 else s.workers.length) := by
  unfold start_upload
  cases hfp : s.file_path with
  | none => simp
  | some fp =>
    dsimp only
    by_cases hr : s.upload_status.status = "running"
    · rw [if_pos hr]
      simp [hr]
    · rw [if_neg hr]
      simp [hr]

/-- C5 counterexample: the item list of the stored spreadsheet cannot be
parsed, yet Start is accepted, a task is launched, and that run leaves Idle
and ends in "error" with a global error record. -/
theorem c5_counterexample :
    parse_at (run init acts5a).files spPath = Except.error "boom"
      ∧ (run init acts5a).file_path = some spPath
      ∧ (start_upload (run init acts5a) opts0).2 = Resp.ok "Upload started"
      ∧ (run init (acts5a ++ [Act.start opts0])).workers.countP activeW = 1
      ∧ (run init (acts5a ++ [Act.start opts0, Act.wstep 0])).upload_status.status
          = "error" := by
  refine ⟨rfl, by decide, by decide, by decide, by decide⟩

/-- C5 amended: a parse failure at upload time is surfaced synchronously by
the `/upload` route (HTTP 500) and launches nothing and changes no session
path; but Start itself never parses, so when the stored file fails to parse
the launched run ends in "error" with exactly one appended global record
and no item processed. -/
theorem c5_parse_failure_surfaced_at_upload (s : Sys) (nm : String)
    (c : FileContent) (e : String) (files2 : List (String × FileContent))
    (fp2 : String) (hl : Bool) (d : Nat) (st : UploadStatus)
    (hnm : allowed_file ALLOWED_SPREADSHEET_EXTENSIONS nm = true)
    (h1 : parse_spreadsheet c = Except.error e)
    (h2 : parse_at files2 fp2 = Except.error e) :
    (upload_file s (UploadReq.withFile nm c)).2
        = Resp.err 500 ("Error processing spreadsheet: " ++ e)
      ∧ (upload_file s (UploadReq.withFile nm c)).1.workers = s.workers
      ∧ (upload_file s (UploadReq.withFile nm c)).1.file_path = s.file_path
      ∧ (upload_worker files2 fp2 hl d st).1.status = "error"
      ∧ (upload_worker files2 fp2 hl d st).1.errors = st.errors ++ [globalRecord e]
      ∧ (upload_worker files2 fp2 hl d st).2.countP isProcessEv = 0 := by
  unfold upload_file upload_worker
  dsimp only
  rw [hnm, h1, h2]
  exact ⟨rfl, rfl, rfl, rfl, rfl, rfl⟩

/-- C5 witness: a bad spreadsheet upload is answered with the 500 error and
a stored bad file produces the error run. -/
theorem c5_witness :
    allowed_file ALLOWED_SPREADSHEET_EXTENSIONS "a.csv" = true
      ∧ parse_spreadsheet (FileContent.bad "boom") = Except.error "boom"
      ∧ parse_at filesBad spPath = Except.error "boom"
      ∧ ((upload_file init (UploadReq.withFile "a.csv" (FileContent.bad "boom"))).2
            = Resp.err 500 ("Error processing spreadsheet: " ++ "boom")
        ∧ (upload_file init (UploadReq.withFile "a.csv" (FileContent.bad "boom"))).1.workers
            = init.workers
        ∧ (upload_file init (UploadReq.withFile "a.csv" (FileContent.bad "boom"))).1.file_path
            = init.file_path
        ∧ (upload_worker filesBad spPath false 2 initial_upload_status).1.status = "error"
        ∧ (upload_worker filesBad spPath false 2 initial_upload_status).1.errors
            = initial_upload_status.errors ++ [globalRecord "boom"]
        ∧ (upload_worker filesBad spPath false 2 initial_upload_status).2.countP isProcessEv
            = 0) :=
  ⟨rfl, rfl, rfl,
   c5_parse_failure_surfaced_at_upload init "a.csv" (FileContent.bad "boom") "boom"
     filesBad spPath false 2 initial_upload_status rfl rfl rfl⟩

/-- C6: the Item Processor is never acquired and never released.  In every
run the worker's event trace contains zero `procOpen` and zero `procClose`
events (the `MerchAutomation` acquisition at line 136 is commented out and
the `automation.close()` at line 183 sits in unreachable code), so the
claimed pairing — exactly one close per open, on every exit path — holds
with zero instances on both exit paths the worker has (parse success and
parse failure). -/
theorem c6_processor_open_close_counts (files : List (String × FileContent))
    (fp : String) (headless : Bool) (delay : Nat) (st : UploadStatus) :
    (upload_worker files fp headless delay st).2.count Ev.procOpen = 0
      ∧ (upload_worker files fp headless delay st).2.count Ev.procClose = 0 := by
  unfold upload_worker
  cases hp : parse_at files fp <;> exact ⟨rfl, rfl⟩

/-- C7: in every state reachable by any interleaving of requests and worker
steps, the snapshot served by `/status` satisfies
`success + failed ≤ current ≤ total`, the snapshot is exactly the shared
status dictionary, and the worker's post-sleep step never changes `total`
(it is set once, at the start of the run). -/
theorem c7_snapshot_invariant (acts : List Act) :
    (run init acts).upload_status.success + (run init acts).upload_status.failed
        ≤ (run init acts).upload_status.current
      ∧ (run init acts).upload_status.current ≤ (run init acts).upload_status.total
      ∧ (get_status (run init acts)).2 = Resp.statusSnap (run init acts).upload_status
      ∧ (∀ st, (worker_stepB st).total = st.total) := by
  obtain ⟨h1, h2, h3⟩ := counters_zero_run acts init ⟨rfl, rfl, rfl⟩
  exact ⟨by omega, by omega, rfl, fun st => rfl⟩

/-- C8 counterexample: a two-item run with no pause or stop does not end
with `failed = 1, success = n - 1`: whatever the processor would have done
is irrelevant because it is never consulted — the run ends with
`failed = 0, success = 0`, state "completed", and the error log holding the
fixed note record rather than a record referencing any item. -/
theorem c8_counterexample :
    (upload_worker files8 spPath false 0 initial_upload_status).1.failed = 0
      ∧ (upload_worker files8 spPath false 0 initial_upload_status).1.success = 0
      ∧ (upload_worker files8 spPath false 0 initial_upload_status).1.status = "completed"
      ∧ (upload_worker files8 spPath false 0 initial_upload_status).1.errors = [noteRecord]
      ∧ (upload_worker files8 spPath false 0 initial_upload_status).2
          = [Ev.parseCall, Ev.sleepEv 5] := by
  decide

/-- C8 amended: per-item failures cannot occur because no item is ever
processed.  Every run with a parsable spreadsheet leaves `failed` and
`success` unchanged, ends "completed" with exactly one appended record (the
fixed note record, referencing no item), and its event trace contains no
per-item processing call — so no per-item failure exists to abort the
loop. -/
theorem c8_no_per_item_outcomes (files : List (String × FileContent))
    (fp : String) (headless : Bool) (delay : Nat) (st : UploadStatus)
    (ps : List Product) (h : parse_at files fp = Except.ok ps) :
    (upload_worker files fp headless delay st).1.failed = st.failed
      ∧ (upload_worker files fp headless delay st).1.success = st.success
      ∧ (upload_worker files fp headless delay st).1.status = "completed"
      ∧ (upload_worker files fp headless delay st).1.errors = st.errors ++ [noteRecord]
      ∧ (upload_worker files fp headless delay st).2.countP isProcessEv = 0 := by
  unfold upload_worker
  rw [h]
  exact ⟨rfl, rfl, rfl, rfl, rfl⟩

/-- C8 witness: the two-item spreadsheet parses and the amended description
holds on it. -/
theorem c8_witness :
    parse_at files8 spPath = Except.ok [prodA, prodB]
      ∧ ((upload_worker files8 spPath false 0 initial_upload_status).1.failed
            = initial_upload_status.failed
        ∧ (upload_worker files8 spPath false 0 initial_upload_status).1.success
            = initial_upload_status.success
        ∧ (upload_worker files8 spPath false 0 initial_upload_status).1.status = "completed"
        ∧ (upload_worker files8 spPath false 0 initial_upload_status).1.errors
            = initial_upload_status.errors ++ [noteRecord]
        ∧ (upload_worker files8 spPath false 0 initial_upload_status).2.countP isProcessEv
            = 0) :=
  ⟨rfl, c8_no_per_item_outcomes files8 spPath false 0 initial_upload_status
          [prodA, prodB] rfl⟩

/-- C9: submitting an image mapping for original path `p` stores the path
derived from the uploaded file name under `p` — a later submission for the
same key overwrites the earlier one (last write wins) — and the loop-side
resolution logic returns the mapped path when one exists and the original
path unchanged otherwise; being a pure function of the table, it cannot
change it. -/
theorem c9_mapping_resolver (s : Sys) (f index p : String)
    (m : List (String × String)) (k q q2 u : String)
    (hf : allowed_file ALLOWED_IMAGE_EXTENSIONS f = true)
    (hix : index = "" → False) (hp : p = "" → False) :
    dictLookup ((upload_image s (ImageReq.withImage f index p)).1.image_mappings) p
        = some (IMAGES_FOLDER ++ "/" ++ f)
      ∧ dictLookup (dictInsert (dictInsert m k q2) k q) k = some q
      ∧ resolve_image_path m u = (dictLookup m u).getD u := by
  refine ⟨?_, dictLookup_dictInsert (dictInsert m k q2) k q,
          resolve_image_path_eq_getD m u⟩
  unfold upload_image
  dsimp only
  rw [hf, if_pos rfl, if_neg (fun hor => Or.elim hor hix hp)]
  exact dictLookup_dictInsert s.image_mappings p (IMAGES_FOLDER ++ "/" ++ f)

/-- C9 witness: a concrete image upload stores its mapping; lookups and
resolution behave as stated. -/
theorem c9_witness :
    allowed_file ALLOWED_IMAGE_EXTENSIONS "x.png" = true
      ∧ (dictLookup ((upload_image init (ImageReq.withImage "x.png" "0" "images/a.png")).1.image_mappings) "images/a.png"
            = some (IMAGES_FOLDER ++ "/" ++ "x.png")
        ∧ dictLookup (dictInsert (dictInsert [("a", "b")] "a" "d") "a" "c") "a" = some "c"
        ∧ resolve_image_path [("a", "b")] "zzz"
            = (dictLookup [("a", "b")] "zzz").getD "zzz") :=
  ⟨rfl, c9_mapping_resolver init "x.png" "0" "images/a.png" [("a", "b")] "a" "c" "d" "zzz"
          rfl (by decide) (by decide)⟩

/-- C10: a POST to `/upload` resets the shared status dictionary to the
initial snapshot before doing anything else, in every state — including
while a worker is running or a pause is pending — and on every request
shape, valid or not. -/
theorem c10_upload_always_resets (s : Sys) (req : UploadReq) :
    ((upload_file s req).1).upload_status = initial_upload_status :=
  upload_file_resets s req
